import Mathlib

/-!
Shallow embedding of the MCP example server (`src/mcp-server-python/mcp-server.py`):
the three registered tools (`add_numbers`, `multiply_numbers`, `process_text`),
the dispatcher's result wrapping and the tool registry, together with proofs of
the behavioral properties claimed for them.
-/

set_option maxRecDepth 4096

namespace MCPServer

/-- ASCII fragment of Python `str.lower`, lowercasing the code points of the
string one by one (`Char.toLower` agrees with Python's case mapping on ASCII;
code points outside the basic latin letters are left unchanged in this
fragment, whereas Python applies full Unicode case mapping to them, e.g.
lowering `Ü` to `ü`).  Models `operation.lower()` and `text.lower()` in
`process_text`; theorems whose truth depends on non-ASCII casing carry an
explicit all-ASCII hypothesis. -/
def pyLower (s : String) : String := ⟨s.data.map Char.toLower⟩

/-- ASCII fragment of Python `str.upper` (see `pyLower`; Python's full
Unicode mapping, e.g. the length-changing `ß` to `SS` or `ſ` to `S`, is
outside this fragment).  Models `text.upper()` in `process_text`. -/
def pyUpper (s : String) : String := ⟨s.data.map Char.toUpper⟩

/-- Python `text[::-1]`: reverses the sequence of code points (not bytes). -/
def pyReverse (s : String) : String := ⟨s.data.reverse⟩

/-- `process_text` (mcp-server.py lines 494-510): lowercases `operation`,
dispatches on `"upper"` / `"lower"` / `"reverse"`, and for any other value
returns an explanatory string instead of failing. -/
def process_text (text operation : String) : String :=
  let operation := pyLower operation
  if operation = "upper" then
    "Uppercase: " ++ pyUpper text
  else if operation = "lower" then
    "Lowercase: " ++ pyLower text
  else if operation = "reverse" then
    "Reversed: " ++ pyReverse text
  else
    "Unknown operation: " ++ operation ++ ". Available: upper, lower, reverse"

/-- `str()` of a Python float whose value is the integer `n`
(i.e. `str(float(n))`), as used by the f-strings in `add_numbers` and
`multiply_numbers`.  The embedding covers the integral fragment of IEEE-754
binary64: integers of magnitude below 2^53 are represented exactly, and
Python renders such a float as its decimal digits followed by `".0"`
(e.g. `str(float(5)) = "5.0"`); rendering stays in this form for magnitudes
below 10^15, which all theorems below respect. -/
def pyFloatStr (n : Int) : String := toString n ++ ".0"

/-- `add_numbers` (mcp-server.py lines 480-484) on the integral fragment of
binary64: the declared signature `(a: float, b: float)` means both arguments
are Python floats when the body runs; `result = a + b` and the returned
f-string renders all three values with `str`. -/
def add_numbers (a b : Int) : String :=
  let result := a + b
  "The sum of " ++ pyFloatStr a ++ " and " ++ pyFloatStr b ++ " is " ++ pyFloatStr result

/-- `multiply_numbers` (mcp-server.py lines 487-491), same fragment as
`add_numbers`: `result = a * b` rendered by the returned f-string. -/
def multiply_numbers (a b : Int) : String :=
  let result := a * b
  "The product of " ++ pyFloatStr a ++ " and " ++ pyFloatStr b ++ " is " ++ pyFloatStr result

/-- A numeric argument exactly as written in a `tools/call` request body.
Only integer numerals occur in the scenarios under consideration. -/
inductive JsonNumber where
  | intLit (n : Int)
  deriving DecidableEq

/-- The numeral exactly as it was given in the request. -/
def JsonNumber.literal : JsonNumber → String
  | .intLit n => toString n

/-- The value the server hands the tool body: the parameter signature
`a: float` makes the validation layer coerce a JSON integer to a Python
float before the tool body runs (exact on the integral fragment). -/
def JsonNumber.coerced : JsonNumber → Int
  | .intLit n => n

/-- One content segment of a tool-call result. -/
structure TextContent where
  type : String
  text : String
  deriving DecidableEq

/-- Result payload of a `tools/call`, as rendered by the dispatcher. -/
structure ToolCallResult where
  content : List TextContent
  isError : Bool
  deriving DecidableEq

/-- Modelled from the spec: the Dispatcher (§4.3) wraps the tool's returned
string as a single `content` segment of type `"text"` and sets
`isError: false` on normal completion; this wrapping layer lives in the
FastMCP library, not in the repository source. -/
def wrapToolResult (s : String) : ToolCallResult :=
  { content := [{ type := "text", text := s }], isError := false }

/-- Descriptor of a registered tool: its name and docstring description. -/
structure ToolDescriptor where
  name : String
  description : String
  deriving DecidableEq

/-- The three tools registered by the decorators in mcp-server.py
(lines 480, 487, 494), in registration order, with their docstrings. -/
def registeredTools : List ToolDescriptor :=
  [ { name := "add_numbers", description := "Add two numbers together" },
    { name := "multiply_numbers", description := "Multiply two numbers together" },
    { name := "process_text", description := "Process text with various operations" } ]

/-- Server state: the registry is the only shared state (§2, §3). -/
structure ServerState where
  registry : List ToolDescriptor
  deriving DecidableEq

/-- Modelled from the spec: `tools/list` returns every `ToolDescriptor` from
the Registry in stable order (§4.1, §4.3) and the handler is stateless; the
registry and dispatch machinery live in the FastMCP library, not in the
repository source. -/
def handleToolsList (s : ServerState) : List ToolDescriptor × ServerState :=
  (s.registry, s)

/-! ### Character-level lemmas for the ASCII case maps -/

theorem toNat_ofNat_of_valid {n : Nat} (h : n.isValidChar) :
    (Char.ofNat n).toNat = n := by
  simp only [Char.ofNat, dif_pos h, Char.ofNatAux, Char.toNat]
  simp [UInt32.toNat]

theorem toLower_toLower (c : Char) : c.toLower.toLower = c.toLower := by
  unfold Char.toLower
  by_cases h : 65 ≤ c.toNat ∧ c.toNat ≤ 90
  · rw [if_pos h]
    have hv : (c.toNat + 32).isValidChar := Or.inl (by omega)
    rw [toNat_ofNat_of_valid hv, if_neg (by omega)]
  · rw [if_neg h, if_neg h]

theorem toLower_toUpper (c : Char) : c.toUpper.toLower = c.toLower := by
  unfold Char.toLower Char.toUpper
  by_cases h : 97 ≤ c.toNat ∧ c.toNat ≤ 122
  · rw [if_pos h]
    have hv : (c.toNat - 32).isValidChar := Or.inl (by omega)
    rw [toNat_ofNat_of_valid hv, if_pos (by omega), if_neg (by omega)]
    have : c.toNat - 32 + 32 = c.toNat := by omega
    rw [this, Char.ofNat_toNat]
  · rw [if_neg h]

/-! ### String-level lemmas -/

theorem pyLower_pyLower (s : String) : pyLower (pyLower s) = pyLower s := by
  simp [pyLower, List.map_map, Function.comp_def, toLower_toLower]

theorem pyLower_pyUpper (s : String) : pyLower (pyUpper s) = pyLower s := by
  simp [pyLower, pyUpper, List.map_map, Function.comp_def, toLower_toUpper]

theorem pyLower_append (s t : String) :
    pyLower (s ++ t) = pyLower s ++ pyLower t := by
  apply String.ext
  simp [pyLower, String.data_append]

theorem pyReverse_append (s t : String) :
    pyReverse (s ++ t) = pyReverse t ++ pyReverse s := by
  apply String.ext
  simp [pyReverse, String.data_append]

theorem pyReverse_pyReverse (s : String) : pyReverse (pyReverse s) = s := by
  apply String.ext
  simp [pyReverse]

theorem pyReverse_length (s : String) : (pyReverse s).length = s.length := by
  cases s
  simp [pyReverse]

/-- Unfolding lemma: `process_text` first lowercases the operation, then
dispatches on the three recognized values. -/
theorem process_text_eq (text op : String) :
    process_text text op =
      if pyLower op = "upper" then "Uppercase: " ++ pyUpper text
      else if pyLower op = "lower" then "Lowercase: " ++ pyLower text
      else if pyLower op = "reverse" then "Reversed: " ++ pyReverse text
      else "Unknown operation: " ++ pyLower op ++ ". Available: upper, lower, reverse" :=
  rfl

/-! ### Claim theorems -/

/-- C1: at the scenario input (`a = 5`, `b = 10`, both given as JSON integer
numerals), the `float`-typed signature makes the tool body receive the floats
5.0 and 10.0, so the produced single text segment reads
"The sum of 5.0 and 10.0 is 15.0" (with `isError` false) — not the
"The sum of 5 and 10 is 15" text that the claim (and the OpenAPI example
embedded in the source at line 385) states. -/
theorem c1_add_numbers_scenario :
    wrapToolResult (add_numbers (JsonNumber.intLit 5).coerced (JsonNumber.intLit 10).coerced) =
      { content := [{ type := "text", text := "The sum of 5.0 and 10.0 is 15.0" }],
        isError := false }
    ∧ (wrapToolResult (add_numbers (JsonNumber.intLit 5).coerced
          (JsonNumber.intLit 10).coerced)).content ≠
        [{ type := "text", text := "The sum of 5 and 10 is 15" }] := by
  constructor
  · rfl
  · decide

/-- C2 counterexample: for the request giving `a` as the integer numeral `5`
and `b` as `10`, the result text of `add_numbers` does not reproduce the two
operands verbatim as given followed by the float-rendered sum: the operands
are re-rendered as "5.0" and "10.0" by the float coercion. -/
theorem c2_not_verbatim :
    add_numbers (JsonNumber.intLit 5).coerced (JsonNumber.intLit 10).coerced ≠
      "The sum of " ++ (JsonNumber.intLit 5).literal ++ " and " ++
        (JsonNumber.intLit 10).literal ++ " is " ++ pyFloatStr (5 + 10) := by
  decide

/-- C2 amended: the result text of `add_numbers` and `multiply_numbers`
renders the two operands with Python's default float-to-string conversion of
their coerced values (an integral operand gains a trailing ".0"), followed by
the computed result in the same conversion.  The magnitude bounds keep the
integral binary64 fragment exact and in non-scientific rendering. -/
theorem c2_float_rendering (a b : Int)
    (_ha : a.natAbs < 10 ^ 15) (_hb : b.natAbs < 10 ^ 15)
    (_hab : (a * b).natAbs < 10 ^ 15) :
    add_numbers a b =
      "The sum of " ++ (toString a ++ ".0") ++ " and " ++ (toString b ++ ".0") ++
        " is " ++ (toString (a + b) ++ ".0")
    ∧ multiply_numbers a b =
      "The product of " ++ (toString a ++ ".0") ++ " and " ++ (toString b ++ ".0") ++
        " is " ++ (toString (a * b) ++ ".0") :=
  ⟨rfl, rfl⟩

theorem c2_float_rendering_witness :
    add_numbers 5 10 =
      "The sum of " ++ (toString (5 : Int) ++ ".0") ++ " and " ++
        (toString (10 : Int) ++ ".0") ++ " is " ++ (toString (5 + 10 : Int) ++ ".0") :=
  (c2_float_rendering 5 10 (by decide) (by decide) (by decide)).1

/-- C3: for any operation whose lowered form is none of "upper", "lower",
"reverse", `process_text` returns a result string naming the (lowered)
offending value and listing the three valid operations, and the dispatcher
reports it as successful tool output with `isError` false. -/
theorem c3_unknown_operation_soft_failure (text operation : String)
    (h1 : pyLower operation ≠ "upper") (h2 : pyLower operation ≠ "lower")
    (h3 : pyLower operation ≠ "reverse") :
    wrapToolResult (process_text text operation) =
      { content := [{ type := "text",
                      text := "Unknown operation: " ++ pyLower operation ++
                        ". Available: upper, lower, reverse" }],
        isError := false } := by
  rw [wrapToolResult, process_text_eq, if_neg h1, if_neg h2, if_neg h3]

theorem c3_unknown_operation_witness :
    wrapToolResult (process_text "abc" "Frobnicate") =
      { content := [{ type := "text",
                      text := "Unknown operation: " ++ pyLower "Frobnicate" ++
                        ". Available: upper, lower, reverse" }],
        isError := false } :=
  c3_unknown_operation_soft_failure "abc" "Frobnicate" (by decide) (by decide) (by decide)

/-- C4 counterexample: applying the `reverse` operation of `process_text`
twice does not return the input, and a single application does not preserve
the code-point length, because the tool prefixes the label "Reversed: " to
the transformed text. -/
theorem c4_reverse_label_breaks_involution :
    process_text (process_text "ab" "reverse") "reverse" ≠ "ab"
    ∧ (process_text "ab" "reverse").length ≠ ("ab" : String).length := by
  constructor
  · decide
  · decide

/-- C4 amended: the reversal transform itself (the text after the
"Reversed: " label) reverses the sequence of code points, is an involution,
and preserves code-point length; the full tool output carries the label, so
applying the tool twice yields "Reversed: " ++ s ++ " :desreveR" and a single
output is 10 code points longer than the input. -/
theorem c4_reverse_transform_involution (s : String) :
    process_text s "reverse" = "Reversed: " ++ pyReverse s
    ∧ pyReverse (pyReverse s) = s
    ∧ (pyReverse s).length = s.length
    ∧ process_text (process_text s "reverse") "reverse" =
        ("Reversed: " ++ s) ++ " :desreveR"
    ∧ (process_text s "reverse").length = s.length + 10 := by
  have h1 : process_text s "reverse" = "Reversed: " ++ pyReverse s := rfl
  refine ⟨h1, pyReverse_pyReverse s, pyReverse_length s, ?_, ?_⟩
  · rw [h1]
    have h2 : process_text ("Reversed: " ++ pyReverse s) "reverse" =
        "Reversed: " ++ pyReverse ("Reversed: " ++ pyReverse s) := rfl
    rw [h2, pyReverse_append, pyReverse_pyReverse,
      show pyReverse "Reversed: " = " :desreveR" from rfl, String.append_assoc]
  · rw [h1, String.length_append, pyReverse_length s,
      show ("Reversed: " : String).length = 10 from rfl]
    omega

/-- C5 counterexample: feeding the full output of `process_text s "upper"`
back through the "lower" operation does not yield the fully-lowercased form
of `s`; for `s = "Hi"` it yields "Lowercase: uppercase: hi", the labels of
both passes surviving in the result. -/
theorem c5_labels_break_roundtrip :
    process_text (process_text "Hi" "upper") "lower" = "Lowercase: uppercase: hi"
    ∧ process_text (process_text "Hi" "upper") "lower" ≠ pyLower "Hi" := by
  constructor
  · decide
  · decide

/-- C5 amended: the second call lowercases the first call's entire labeled
output, so for an all-ASCII input the result is "Lowercase: uppercase: "
followed by the fully-lowercased form of `s` — the lowercased form is the
trailing segment, not the whole result.  The ASCII hypothesis marks where
the embedding is exact: off ASCII, Python's full Unicode casing makes
lower(upper(s)) differ from lower(s) (e.g. s = "straße" uppercases to
"STRASSE", so the trailing segment becomes "strasse"). -/
theorem c5_lowercase_after_upper (s : String)
    (_hs : ∀ c ∈ s.data, c.toNat < 128) :
    process_text (process_text s "upper") "lower" =
      "Lowercase: uppercase: " ++ pyLower s := by
  have h1 : process_text s "upper" = "Uppercase: " ++ pyUpper s := rfl
  have h2 : process_text ("Uppercase: " ++ pyUpper s) "lower" =
      "Lowercase: " ++ pyLower ("Uppercase: " ++ pyUpper s) := rfl
  rw [h1, h2, pyLower_append, pyLower_pyUpper,
    show pyLower "Uppercase: " = "uppercase: " from rfl, ← String.append_assoc,
    show ("Lowercase: " ++ "uppercase: " : String) = "Lowercase: uppercase: " from rfl]

theorem c5_lowercase_after_upper_witness :
    process_text (process_text "Hi" "upper") "lower" =
      "Lowercase: uppercase: " ++ pyLower "Hi" :=
  c5_lowercase_after_upper "Hi" (by decide)

/-- C6: `process_text` matches the operation case-insensitively after
lowering, maps the three recognized values to the labels "Uppercase",
"Lowercase" and "Reversed", falls back for every other value, and on the
scenario input ("hello world", "upper") produces "Uppercase: HELLO WORLD". -/
theorem c6_operation_dispatch (text operation : String) :
    process_text text operation = process_text text (pyLower operation)
    ∧ process_text text "upper" = "Uppercase: " ++ pyUpper text
    ∧ process_text text "lower" = "Lowercase: " ++ pyLower text
    ∧ process_text text "reverse" = "Reversed: " ++ pyReverse text
    ∧ (pyLower operation ≠ "upper" → pyLower operation ≠ "lower" →
        pyLower operation ≠ "reverse" →
        process_text text operation =
          "Unknown operation: " ++ pyLower operation ++ ". Available: upper, lower, reverse")
    ∧ process_text "hello world" "upper" = "Uppercase: HELLO WORLD" := by
  refine ⟨?_, rfl, rfl, rfl, ?_, by decide⟩
  · rw [process_text_eq, process_text_eq, pyLower_pyLower]
  · intro h1 h2 h3
    rw [process_text_eq, if_neg h1, if_neg h2, if_neg h3]

theorem c6_operation_dispatch_witness :
    process_text "abc" "Mixed" =
      "Unknown operation: " ++ pyLower "Mixed" ++ ". Available: upper, lower, reverse" :=
  ((c6_operation_dispatch "abc" "Mixed").2.2.2.2.1) (by decide) (by decide) (by decide)

/-- C8: listing the tools is deterministic and leaves the registry
untouched: two successive `tools/list` invocations return the same tool
sequence, the handler does not change the state, and on the server's actual
registry the listing is the three registered tools in registration order. -/
theorem c8_tools_list_deterministic (s : ServerState) :
    (handleToolsList (handleToolsList s).2).1 = (handleToolsList s).1
    ∧ (handleToolsList s).2 = s
    ∧ (handleToolsList { registry := registeredTools }).1 = registeredTools :=
  ⟨rfl, rfl, rfl⟩

/-- C9: `process_text` is total on its public interface — for every text and
every operation string, each control path ends in a return, producing one of
the three labeled outputs or the fallback message. -/
theorem c9_process_text_total (text operation : String) :
    process_text text operation = "Uppercase: " ++ pyUpper text
    ∨ process_text text operation = "Lowercase: " ++ pyLower text
    ∨ process_text text operation = "Reversed: " ++ pyReverse text
    ∨ process_text text operation =
        "Unknown operation: " ++ pyLower operation ++ ". Available: upper, lower, reverse" := by
  rw [process_text_eq]
  by_cases h1 : pyLower operation = "upper"
  · rw [if_pos h1]
    exact Or.inl rfl
  rw [if_neg h1]
  by_cases h2 : pyLower operation = "lower"
  · rw [if_pos h2]
    exact Or.inr (Or.inl rfl)
  rw [if_neg h2]
  by_cases h3 : pyLower operation = "reverse"
  · rw [if_pos h3]
    exact Or.inr (Or.inr (Or.inl rfl))
  rw [if_neg h3]
  exact Or.inr (Or.inr (Or.inr rfl))

/-- C10: in the unknown-operation fallback, the message names the lowercased
form of the caller's operation argument, not the argument as originally
given: operation "Foo" produces the message naming "foo". -/
theorem c10_fallback_names_lowered_value (text operation : String)
    (h1 : pyLower operation ≠ "upper") (h2 : pyLower operation ≠ "lower")
    (h3 : pyLower operation ≠ "reverse") :
    process_text text operation =
      "Unknown operation: " ++ pyLower operation ++ ". Available: upper, lower, reverse"
    ∧ process_text text "Foo" = "Unknown operation: foo. Available: upper, lower, reverse"
    ∧ process_text text "Foo" ≠ "Unknown operation: Foo. Available: upper, lower, reverse" := by
  have hfoo : process_text text "Foo" =
      "Unknown operation: foo. Available: upper, lower, reverse" := rfl
  refine ⟨?_, hfoo, ?_⟩
  · rw [process_text_eq, if_neg h1, if_neg h2, if_neg h3]
  · rw [hfoo]
    decide

theorem c10_fallback_witness :
    process_text "abc" "Foo" =
      "Unknown operation: " ++ pyLower "Foo" ++ ". Available: upper, lower, reverse" :=
  (c10_fallback_names_lowered_value "abc" "Foo" (by decide) (by decide) (by decide)).1

end MCPServer
